import Mathlib

/-!
Verification of the Butterfly pointer broker (`app.py`) against its
natural-language specification.

The development shallowly embeds the `PointerHelper` action handlers:
the relational tables become lists of records, SQL reads/updates become
list operations, and each handler becomes a function from its query
parameters and the current state to a result and a successor state.
Python dynamic values (used by the circuit interpreter) are embedded as
an inductive `PyVal`, and the uncaught-exception behaviour of the
interpreter is made explicit in the result types.

Notes on fidelity kept throughout, next to the definitions concerned:
  * `PointerHelper` has no `db_manager` attribute of its own; every
    handler accesses the single store that `AuditModule` opens, so the
    embedding uses one `State`.
  * the audit log and the mailing list are append-only side tables no
    claim mentions; they are not part of `State`.
-/

/-! ### Python dynamic values and the circuit interpreter

`_evaluate_expression` and `_substitute_values` (app.py lines 298-337)
walk JSON-like Python values.  `PyVal.none` is Python's `None`.
-/

inductive PyVal where
  | str (s : String)
  | int (n : Int)
  | list (items : List PyVal)
  | dict (entries : List (String × PyVal))
  | none

/-- Outcome of `_evaluate_expression`.  The Python body is wrapped in
`try ... except (IndexError, KeyError, TypeError): return None`; those
three exception classes therefore collapse into `noneResult`, while an
`AttributeError` (raised by `value.get(...)` when `value` is a list,
string, int or `None`) is NOT in the caught tuple and escapes the
function: `attrError`. -/
inductive EvalOutcome where
  | value (v : PyVal)
  | noneResult
  | attrError

/-- `part.replace('[', '').replace(']', '').replace('\'', '')`:
removes every square bracket and single quote. -/
def stripChars (cs : List Char) : List Char :=
  cs.filter (fun c => !(c == '[' || c == ']' || c == '\x27'))

/-- `expression.split('.')`: splits at every dot, keeping empty pieces
(Python's `str.split` with an explicit separator). -/
def splitDot (cs : List Char) (cur : List Char) : List (List Char) :=
  match cs with
  | [] => [cur.reverse]
  | c :: rest =>
    if c == '.' then cur.reverse :: splitDot rest []
    else splitDot rest (c :: cur)

def isPySpace (c : Char) : Bool :=
  c == ' ' || c == '\t' || c == '\n' || c == '\r'

/-- Decimal digit run, `Option.none` when empty or non-digit. -/
def digitsVal (cs : List Char) : Option Nat :=
  match cs with
  | [] => Option.none
  | _ =>
    cs.foldl (fun acc c =>
      match acc with
      | Option.none => Option.none
      | some n => if c.isDigit then some (n * 10 + (c.toNat - 48)) else Option.none)
      (some 0)

/-- `int(part)`: surrounding whitespace and an optional sign are
accepted, otherwise the string must be all decimal digits (digit-group
underscores and non-ASCII digits, which CPython also accepts, are not
modelled; no stored circuit uses them). `Option.none` is `ValueError`. -/
def pyToInt (cs : List Char) : Option Int :=
  let t := ((cs.dropWhile isPySpace).reverse.dropWhile isPySpace).reverse
  match t with
  | '-' :: ds => (digitsVal ds).map (fun n => -(n : Int))
  | '+' :: ds => (digitsVal ds).map (fun n => (n : Int))
  | ds => (digitsVal ds).map (fun n => (n : Int))

/-- Python list indexing `xs[i]`, including negative indices;
`Option.none` is `IndexError`. -/
def listIndex (xs : List PyVal) (i : Int) : Option PyVal :=
  let j : Int := if i < 0 then i + xs.length else i
  if h : 0 ≤ j ∧ j < xs.length then some (xs.get ⟨j.toNat, by omega⟩)
  else Option.none

/-- Python string indexing `s[i]` (yields a one-character string). -/
def strIndex (s : String) (i : Int) : Option PyVal :=
  let cs := s.data
  let j : Int := if i < 0 then i + cs.length else i
  if h : 0 ≤ j ∧ j < cs.length then some (PyVal.str (String.mk [cs.get ⟨j.toNat, by omega⟩]))
  else Option.none

/-- `dict.get(key)`: Python returns `None` when the key is absent. -/
def dictGet (entries : List (String × PyVal)) (key : String) : PyVal :=
  match entries.find? (fun e => e.1 == key) with
  | some e => e.2
  | Option.none => PyVal.none

/-- The per-part loop body of `_evaluate_expression`: strip brackets and
quotes, try integer indexing, otherwise `value.get(part)`.  `value[i]`
on a dict with string keys raises `KeyError` (caught); `value[i]` on an
int or `None` raises `TypeError` (caught); `value.get` exists only on
dicts and raises `AttributeError` (uncaught) otherwise. -/
def evalWalk : List (List Char) → PyVal → EvalOutcome
  | [], v => .value v
  | part :: rest, v =>
    let p := stripChars part
    let stepOut : EvalOutcome :=
      match pyToInt p with
      | some i =>
        match v with
        | .list xs =>
          match listIndex xs i with
          | some nv => .value nv
          | Option.none => .noneResult
        | .str s =>
          match strIndex s i with
          | some nv => .value nv
          | Option.none => .noneResult
        | .dict _ => .noneResult
        | .int _ => .noneResult
        | .none => .noneResult
      | Option.none =>
        match v with
        | .dict entries => .value (dictGet entries (String.mk p))
        | _ => .attrError
    match stepOut with
    | .value PyVal.none => .noneResult
    | .value v' => evalWalk rest v'
    | .noneResult => .noneResult
    | .attrError => .attrError

/-- `_evaluate_expression(expression, results)` (app.py 298-318): the
walk starts at the bare `results` list. -/
def evaluate_expression (expression : String) (results : List PyVal) : EvalOutcome :=
  evalWalk (splitDot expression.data []) (PyVal.list results)

mutual

/-- Python `repr`, as far as the interpreter can print values
(quote-escaping inside strings is not reproduced; no claim depends on
it). -/
def pyRepr : PyVal → String
  | .str s => "\x27" ++ s ++ "\x27"
  | .int n => toString n
  | .none => "None"
  | .list xs => "[" ++ pyReprItems xs ++ "]"
  | .dict es => "\x7b" ++ pyReprEntries es ++ "\x7d"

def pyReprItems : List PyVal → String
  | [] => ""
  | [x] => pyRepr x
  | x :: rest => pyRepr x ++ ", " ++ pyReprItems rest

def pyReprEntries : List (String × PyVal) → String
  | [] => ""
  | [(k, v)] => "\x27" ++ k ++ "\x27: " ++ pyRepr v
  | (k, v) :: rest => "\x27" ++ k ++ "\x27: " ++ pyRepr v ++ ", " ++ pyReprEntries rest

end

/-- Python `str(x)`, used by `_substitute_values` on an evaluated value. -/
def pyStr : PyVal → String
  | .str s => s
  | .int n => toString n
  | .none => "None"
  | .list xs => "[" ++ pyReprItems xs ++ "]"
  | .dict es => "\x7b" ++ pyReprEntries es ++ "\x7d"

def lbrace : Char := Char.ofNat 123

def rbrace : Char := Char.ofNat 125

/-- `_substitute_values(action, results)` (app.py 320-337).  A string
value containing both braces is treated as a placeholder; the
expression is the slice between the first brace of each kind
(`value[value.find('\x7b') + 1 : value.find('\x7d')]`).  `Option.none`
models the `AttributeError` escaping `_evaluate_expression` and hence
this function. -/
def substitute_values (action : List (String × PyVal)) (results : List PyVal) :
    Option (List (String × PyVal)) :=
  match action with
  | [] => some []
  | (k, v) :: rest =>
    let newVal : Option PyVal :=
      match v with
      | .str sv =>
        if sv.data.contains lbrace && sv.data.contains rbrace then
          let i := sv.data.findIdx (fun c => c == lbrace)
          let j := sv.data.findIdx (fun c => c == rbrace)
          let expr := (sv.data.drop (i + 1)).take (j - (i + 1))
          match evalWalk (splitDot expr []) (PyVal.list results) with
          | .value ev => some (.str (pyStr ev))
          | .noneResult => some v
          | .attrError => Option.none
        else some v
      | _ => some v
    match newVal, substitute_values rest results with
    | some nv, some restOut => some ((k, nv) :: restOut)
    | _, _ => Option.none

/-- A path written without the `results.` prefix does resolve: the walk
starts at the results list itself, so `0.address` indexes step 0 and
reads its `address` key. -/
lemma evaluate_expression_resolves_unprefixed_path :
    evaluate_expression "0.address"
      [PyVal.dict [("address", PyVal.str "ptr_abc")]] =
      EvalOutcome.value (PyVal.str "ptr_abc") := by
  rfl

/-! ### SHA-256 and `_hash_to_vector3`

`_hash_to_vector3` (app.py 188-197) computes
`int(hashlib.sha256(s.encode('utf-8')).hexdigest(), 16)` and maps three
decimal segments of that integer into `[0, 100)`.  SHA-256 (FIPS 180-4,
which is what `hashlib.sha256` implements) is embedded below over `Nat`
with explicit reduction modulo `2 ^ 32`. -/

def w32mod : Nat := 4294967296

def w32 (n : Nat) : Nat := n % w32mod

def rotr32 (x n : Nat) : Nat := w32 ((x >>> n) ||| (x <<< (32 - n)))

def bsig0 (x : Nat) : Nat := (rotr32 x 2) ^^^ (rotr32 x 13) ^^^ (rotr32 x 22)

def bsig1 (x : Nat) : Nat := (rotr32 x 6) ^^^ (rotr32 x 11) ^^^ (rotr32 x 25)

def ssig0 (x : Nat) : Nat := (rotr32 x 7) ^^^ (rotr32 x 18) ^^^ (x >>> 3)

def ssig1 (x : Nat) : Nat := (rotr32 x 17) ^^^ (rotr32 x 19) ^^^ (x >>> 10)

/-- The 64 SHA-256 round constants of FIPS 180-4 (in decimal). -/
def sha256K : Array Nat := #[
  1116352408, 1899447441, 3049323471, 3921009573,
  961987163, 1508970993, 2453635748, 2870763221,
  3624381080, 310598401, 607225278, 1426881987,
  1925078388, 2162078206, 2614888103, 3248222580,
  3835390401, 4022224774, 264347078, 604807628,
  770255983, 1249150122, 1555081692, 1996064986,
  2554220882, 2821834349, 2952996808, 3210313671,
  3336571891, 3584528711, 113926993, 338241895,
  666307205, 773529912, 1294757372, 1396182291,
  1695183700, 1986661051, 2177026350, 2456956037,
  2730485921, 2820302411, 3259730800, 3345764771,
  3516065817, 3600352804, 4094571909, 275423344,
  430227734, 506948616, 659060556, 883997877,
  958139571, 1322822218, 1537002063, 1747873779,
  1955562222, 2024104815, 2227730452, 2361852424,
  2428436474, 2756734187, 3204031479, 3329325298]

structure Hash8 where
  a : Nat
  b : Nat
  c : Nat
  d : Nat
  e : Nat
  f : Nat
  g : Nat
  hh : Nat

/-- The initial SHA-256 hash state of FIPS 180-4 (in decimal). -/
def sha256InitHash : Hash8 :=
  ⟨1779033703, 3144134277, 1013904242, 2773480762,
   1359893119, 2600822924, 528734635, 1541459225⟩

/-- Extend the 16 message-schedule words to 64. -/
def extendW : Nat → Array Nat → Array Nat
  | 0, w => w
  | n + 1, w =>
    let i := w.size
    let s0 := ssig0 (w.getD (i - 15) 0)
    let s1 := ssig1 (w.getD (i - 2) 0)
    extendW n (w.push (w32 ((w.getD (i - 16) 0) + s0 + (w.getD (i - 7) 0) + s1)))

def sha256Round (st : Hash8) (ki wi : Nat) : Hash8 :=
  let t1 := w32 (st.hh + bsig1 st.e + ((st.e &&& st.f) ^^^ ((w32mod - 1 - st.e) &&& st.g)) + ki + wi)
  let t2 := w32 (bsig0 st.a + ((st.a &&& st.b) ^^^ (st.a &&& st.c) ^^^ (st.b &&& st.c)))
  ⟨w32 (t1 + t2), st.a, st.b, st.c, w32 (st.d + t1), st.e, st.f, st.g⟩

def sha256Block (hs : Hash8) (w16 : Array Nat) : Hash8 :=
  let w := extendW 48 w16
  let fin := (List.range 64).foldl
    (fun st i => sha256Round st (sha256K.getD i 0) (w.getD i 0)) hs
  ⟨w32 (hs.a + fin.a), w32 (hs.b + fin.b), w32 (hs.c + fin.c), w32 (hs.d + fin.d),
   w32 (hs.e + fin.e), w32 (hs.f + fin.f), w32 (hs.g + fin.g), w32 (hs.hh + fin.hh)⟩

/-- Big-endian bytes of `n` over `len` bytes. -/
def beBytes : Nat → Nat → List Nat
  | 0, _ => []
  | len + 1, n => beBytes len (n / 256) ++ [n % 256]

/-- SHA-256 padding: `0x80`, zeros to 56 mod 64, then the bit length
over 8 big-endian bytes. -/
def padMsg (msg : List Nat) : List Nat :=
  let L := msg.length
  msg ++ [0x80] ++ List.replicate ((119 - (L % 64)) % 64) 0 ++ beBytes 8 (8 * L)

/-- Split `count` 64-byte blocks off the front of `l`, each as 16
big-endian 32-bit words. -/
def toBlocks : Nat → List Nat → List (Array Nat)
  | 0, _ => []
  | count + 1, l =>
    let block := l.take 64
    let words := (List.range 16).map
      (fun i => (block.drop (4 * i)).take 4 |>.foldl (fun acc b => acc * 256 + b) 0)
    words.toArray :: toBlocks count (l.drop 64)

/-- SHA-256 digest of a byte list, as 32 bytes. -/
def sha256Digest (msg : List Nat) : List Nat :=
  let padded := padMsg msg
  let final := (toBlocks (padded.length / 64) padded).foldl sha256Block sha256InitHash
  beBytes 4 final.a ++ beBytes 4 final.b ++ beBytes 4 final.c ++ beBytes 4 final.d ++
  beBytes 4 final.e ++ beBytes 4 final.f ++ beBytes 4 final.g ++ beBytes 4 final.hh

/-- `int(hexdigest, 16)`: the digest read as one big-endian integer. -/
def sha256Int (msg : List Nat) : Nat :=
  (sha256Digest msg).foldl (fun acc b => acc * 256 + b) 0

/-- UTF-8 encoding of one character (`str.encode('utf-8')`). -/
def utf8Char (c : Char) : List Nat :=
  let n := c.toNat
  if n < 0x80 then [n]
  else if n < 0x800 then [0xC0 + n / 64, 0x80 + n % 64]
  else if n < 0x10000 then [0xE0 + n / 4096, 0x80 + (n / 64) % 64, 0x80 + n % 64]
  else [0xF0 + n / 262144, 0x80 + (n / 4096) % 64, 0x80 + (n / 64) % 64, 0x80 + n % 64]

def utf8Bytes (s : String) : List Nat :=
  s.data.flatMap utf8Char

/-- `_hash_to_vector3` (app.py 188-197): three decimal segments of the
digest integer, each normalised into `[0, 100)` by dividing by 100.
Note the third component (the stored `z`) is hash-derived like the
other two. -/
def hash_to_vector3 (s : String) : ℚ × ℚ × ℚ :=
  let hashVal := sha256Int (utf8Bytes s)
  (((hashVal % 10000 : Nat) : ℚ) / 100,
   ((((hashVal / 10000) % 10000 : Nat)) : ℚ) / 100,
   ((((hashVal / 100000000) % 10000 : Nat)) : ℚ) / 100)

set_option maxRecDepth 40000

/-- Concrete evaluation of the hash placement for one address of the
shape the code generates (`"ptr_" ++ 12 hex chars`). -/
lemma hash_to_vector3_concrete :
    hash_to_vector3 "ptr_0123456789ab" = (3798 / 100, 7909 / 100, 3319 / 100) := by
  have h : sha256Int (utf8Bytes "ptr_0123456789ab") =
      0x562d0a11f98b577134c73e0138e47b0535978421c9ad3a337da19772abc91726 := by decide
  unfold hash_to_vector3
  rw [h]
  norm_num

/-! ### Data model

One record per table of `_initialize_schema` (app.py 100-175), minus
the audit log and mailing list (append-only side tables no claim
mentions).  Timestamps are drawn from a `now : Nat` argument standing
for `datetime.now(timezone.utc)`.  Relationship weights live in `ℝ`
because the gyroid weight is a sine/cosine expression. -/

structure Pointer where
  address : String
  description : String
  data_reference : String
  tags : List String
  connection_id : Option String
  credential_pointer_address : Option String
  x : ℚ
  y : ℚ
  z : ℚ
  created_at : Nat
  last_modified : Nat
deriving DecidableEq

structure Relationship where
  pointer_a_address : String
  pointer_b_address : String
  relationship : String
  weight : ℝ

structure Domain where
  id : String
  name : String
  created_at : Nat
deriving DecidableEq

structure Connection where
  id : String
  name : String
  description : String
  allow_writes : Bool
  status : String
  domain_id : String
deriving DecidableEq

structure AccessKey where
  key : String
  domain_id : String
  permissions : List String
  created_at : Nat
deriving DecidableEq

structure Federation where
  id : String
  source_domain_id : String
  target_domain_id : String
  status : String
  permissions : List String
  request_key : String
  created_at : Nat
  accepted_at : Option Nat
deriving DecidableEq

/-- The single store.  `PointerHelper.__init__` never assigns a
`db_manager` attribute of its own; all handlers read and write the one
database opened by `AuditModule`, embedded here as one state. -/
structure State where
  pointers : List Pointer
  relationships : List Relationship
  domains : List Domain
  connections : List Connection
  access_keys : List AccessKey
  federations : List Federation

def initState : State := ⟨[], [], [], [], [], []⟩

/-- The auth context injected into every query by the `/invoke` route
(`token_required`, app.py 1698-1744): the access key the bearer token
references, plus that key's domain and permission list from the
`access_keys` table.  It is always a non-empty dict when a handler
runs, so Python's `all([...])` truthiness checks on it pass. -/
structure AuthContext where
  key : String
  domain_id : String
  permissions : List String
deriving DecidableEq

/-- Handler results.  `success`/`error` carry the `message` text (the
structured `result` payloads hold no information any claim inspects).
`proxy url cred` records that the handler reached step 4 of
`_handle_invoke_through_connection` and performed the outbound
`requests.get(url, headers, timeout=10)` — whether that yields
`success` or `interpretation_rendered` depends on the network, which is
outside the embedding.  `circuitDelegation` records that the handler
parsed an `internal_circuit::` reference and handed the serialized
definition to `_execute_circuit`. -/
inductive Res where
  | success (message : String)
  | error (message : String)
  | proxy (url : String) (credential_data_reference : Option String)
  | circuitDelegation (serialized : String)
deriving DecidableEq

def Res.isSuccess : Res → Bool
  | .success _ => true
  | _ => false

def Res.isError : Res → Bool
  | .error _ => true
  | _ => false

/-- Modelled from the spec: the method `self._is_federated`, called by
the three connection-scoped handlers (app.py 950, 981, 1112), has no
definition anywhere in the source.  The spec says: "is_federated
(domain_a, domain_b) → bool ... true only if an `accepted` (not
revoked) federation exists between the two domains in either
direction." -/
def is_federated (s : State) (domain_a domain_b : String) : Bool :=
  s.federations.any (fun f =>
    f.status == "accepted" &&
    ((f.source_domain_id == domain_a && f.target_domain_id == domain_b) ||
     (f.source_domain_id == domain_b && f.target_domain_id == domain_a)))

/-! ### Graph engine handlers -/

/-- The SQL expression
`abs(sin(p1.x-p2.x)*cos(p1.y-p2.y) + sin(p1.y-p2.y)*cos(p1.z-p2.z) + sin(p1.z-p2.z)*cos(p1.x-p2.x))`
used by `_add_pointer_to_gyroid_structure` (and `_calculate_gyroid_score`). -/
noncomputable def gyroidScore (dx dy dz : ℚ) : ℝ :=
  |Real.sin dx * Real.cos dy + Real.sin dy * Real.cos dz + Real.sin dz * Real.cos dx|

/-- `_add_pointer_to_gyroid_structure` (app.py 344-361): one bulk
INSERT producing a row `(p1.address, p2.address, 'gyroid_related',
score)` for `p1.address = pointer_address` and every `p2` with
`p1.address != p2.address`.  Only this one direction is inserted.
`_gyroid_threshold` is set in `__init__` but never consulted here: the
all-pairs variant is what the code does. -/
noncomputable def add_pointer_to_gyroid_structure (pointer_address : String) (s : State) : State :=
  match s.pointers.find? (fun p => p.address == pointer_address) with
  | Option.none => s
  | some p1 =>
    { s with relationships := s.relationships ++
        (s.pointers.filter (fun p2 => p2.address != pointer_address)).map (fun p2 =>
          ⟨pointer_address, p2.address, "gyroid_related",
           gyroidScore (p1.x - p2.x) (p1.y - p2.y) (p1.z - p2.z)⟩) }

structure CreatePointerQuery where
  data_reference : String
  description : String
  tags : List String
  x : Option ℚ
  y : Option ℚ
  z : Option ℚ
  connection_id : Option String
deriving DecidableEq

/-- `_handle_create_pointer` (app.py 467-534).  `gen_hex` is the
`uuid.uuid4().hex[:12]` draw; the address is `"ptr_" ++ gen_hex`.  The
dict sets `"z": 0` (`# Z (delta) always starts at 0`) and `x`/`y` from
the query with default `0.0`; when the query carries none of x, y, z,
all three are then overwritten by `_hash_to_vector3(address)`.  A
primary-key collision of the generated address would make the INSERT
raise `IntegrityError` before anything is stored. -/
noncomputable def handle_create_pointer (q : CreatePointerQuery) (gen_hex : String) (now : Nat)
    (s : State) : Res × State :=
  if q.data_reference == "" then
    (.error "Action 'create_pointer' requires a 'data_reference'.", s)
  else
    match s.pointers.find? (fun p => p.data_reference == q.data_reference) with
    | some existing =>
      (.error ("A pointer for this data_reference already exists at address: " ++
        existing.address), s)
    | Option.none =>
      let address := "ptr_" ++ gen_hex
      if s.pointers.any (fun p => p.address == address) then
        (.error "IntegrityError: pointers.address", s)
      else
        let coords : ℚ × ℚ × ℚ :=
          if q.x.isNone && q.y.isNone && q.z.isNone then hash_to_vector3 address
          else (q.x.getD 0, q.y.getD 0, 0)
        let newPtr : Pointer :=
          { address := address, description := q.description,
            data_reference := q.data_reference, tags := q.tags,
            connection_id := q.connection_id, credential_pointer_address := Option.none,
            x := coords.1, y := coords.2.1, z := coords.2.2,
            created_at := now, last_modified := now }
        (.success ("Pointer (SRL) created: " ++ address),
         add_pointer_to_gyroid_structure address { s with pointers := s.pointers ++ [newPtr] })

/-- `_handle_add_neighbor` (app.py 547-592).  The existence check is
`SELECT COUNT(*) FROM pointers WHERE address IN (?, ?)` compared
against 2.  Both directed rows are inserted inside one
`try ... except sqlite3.IntegrityError: pass`: if the `(a, b)` row
already exists the second insert never runs; if only `(b, a)` exists
the `(a, b)` insert has already happened and is kept.  The handler then
returns success either way. -/
def handle_add_neighbor (pointer_address neighbor_address relationship_label : String)
    (weight : ℝ) (now : Nat) (s : State) : Res × State :=
  if pointer_address == "" || neighbor_address == "" then
    (.error "Action 'add_neighbor' requires 'pointer_address' and 'neighbor_address'.", s)
  else if (s.pointers.filter (fun p =>
      p.address == pointer_address || p.address == neighbor_address)).length ≠ 2 then
    (.error "One or both pointers (SRLs) not found. Cannot create relationship.", s)
  else
    let rels1 :=
      if s.relationships.any (fun r =>
          r.pointer_a_address == pointer_address && r.pointer_b_address == neighbor_address) then
        s.relationships
      else
        let withAB := s.relationships ++
          [⟨pointer_address, neighbor_address, relationship_label, weight⟩]
        if s.relationships.any (fun r =>
            r.pointer_a_address == neighbor_address && r.pointer_b_address == pointer_address) then
          withAB
        else
          withAB ++ [⟨neighbor_address, pointer_address, relationship_label, weight⟩]
    let ptrs := s.pointers.map (fun p =>
      if p.address == pointer_address || p.address == neighbor_address then
        { p with last_modified := now }
      else p)
    (.success "Neighbor added successfully.",
     { s with relationships := rels1, pointers := ptrs })

/-! ### Federation handlers -/

/-- `_handle_initiate_federation` (app.py 661-700).  The id and the
single-use key are `"fed_" ++ hex` and `"fed_req_" ++ hex`; the
`UNIQUE(request_key)` and primary-key constraints make the INSERT raise
on a collision, storing nothing. -/
def handle_initiate_federation (ctx : AuthContext) (target_domain_id : String)
    (permissions : List String) (gen_fed_hex gen_key_hex : String) (now : Nat)
    (s : State) : Res × State :=
  if !(ctx.permissions.contains "admin_domain") then
    (.error "Access denied. Only a domain admin can initiate federation.", s)
  else if target_domain_id == "" then
    (.error "Action 'initiate_federation' requires a 'target_domain_id'.", s)
  else if ctx.domain_id == target_domain_id then
    (.error "A domain cannot federate with itself.", s)
  else
    let federation_id := "fed_" ++ gen_fed_hex
    let request_key := "fed_req_" ++ gen_key_hex
    if s.federations.any (fun f => f.id == federation_id || f.request_key == request_key) then
      (.error "IntegrityError: federations", s)
    else
      (.success "Federation request initiated. Securely share the request_key with the target domain administrator.",
       { s with federations := s.federations ++
          [⟨federation_id, ctx.domain_id, target_domain_id, "pending", permissions,
            request_key, now, Option.none⟩] })

/-- `_handle_accept_federation` (app.py 702-725): one conditional
UPDATE (`WHERE request_key = ? AND target_domain_id = ? AND status =
'pending'`); success iff its rowcount is non-zero. -/
def handle_accept_federation (ctx : AuthContext) (request_key : String) (now : Nat)
    (s : State) : Res × State :=
  if !(ctx.permissions.contains "admin_domain") then
    (.error "Access denied. Only a domain admin can accept a federation.", s)
  else if request_key == "" then
    (.error "Action 'accept_federation' requires a 'request_key'.", s)
  else
    let isMatch := fun (f : Federation) =>
      f.request_key == request_key && f.target_domain_id == ctx.domain_id &&
        f.status == "pending"
    let s' : State := { s with federations := s.federations.map (fun f =>
      if isMatch f then { f with status := "accepted", accepted_at := some now } else f) }
    if s.federations.countP isMatch = 0 then
      (.error "Invalid request key, or you are not the target domain, or the request is not pending.", s')
    else
      (.success "Federation successfully established.", s')

/-- `_handle_revoke_federation` (app.py 613-646).  The UPDATE sets
`status = 'revoked' WHERE id = ?` with no precondition on the current
status. -/
def handle_revoke_federation (ctx : AuthContext) (federation_id : String)
    (s : State) : Res × State :=
  if !(ctx.permissions.contains "admin_domain") then
    (.error "Access denied. Only a domain admin can revoke a federation.", s)
  else if federation_id == "" then
    (.error "Action 'revoke_federation' requires a 'federation_id'.", s)
  else
    match s.federations.find? (fun f => f.id == federation_id) with
    | Option.none =>
      (.error ("Federation with ID '" ++ federation_id ++ "' not found."), s)
    | some fed =>
      if !(fed.source_domain_id == ctx.domain_id || fed.target_domain_id == ctx.domain_id) then
        (.error "Access denied. You are not an administrator of a domain involved in this federation.", s)
      else
        (.success "Federation has been revoked.",
         { s with federations := s.federations.map (fun f =>
            if f.id == federation_id then { f with status := "revoked" } else f) })

/-! ### Domain, key and connection handlers -/

/-- `_handle_create_domain` (app.py 727-749); `UNIQUE(name)` and the
primary key make the INSERT raise on a collision. -/
def handle_create_domain (name : String) (gen_hex : String) (now : Nat)
    (s : State) : Res × State :=
  if name == "" then
    (.error "Action 'create_domain' requires a 'name'.", s)
  else
    let domain_id := "dom_" ++ gen_hex
    if s.domains.any (fun d => d.id == domain_id || d.name == name) then
      (.error "IntegrityError: domains", s)
    else
      (.success "Domain created successfully.",
       { s with domains := s.domains ++ [⟨domain_id, name, now⟩] })

/-- `_handle_generate_access_key` (app.py 852-891).  The permissions
arrive as a list (a comma-separated string is parsed into one at the
top of the handler); per the handler's own comment, neither the
caller's rights nor the domain's existence is verified. -/
def handle_generate_access_key (domain_id : String) (permissions : List String)
    (gen_hex : String) (now : Nat) (s : State) : Res × State :=
  if domain_id == "" then
    (.error "Action 'generate_access_key' requires a 'domain_id'.", s)
  else
    let access_key := "key_" ++ gen_hex
    if s.access_keys.any (fun k => k.key == access_key) then
      (.error "IntegrityError: access_keys", s)
    else
      (.success "Access key generated. Store this securely.",
       { s with access_keys := s.access_keys ++ [⟨access_key, domain_id, permissions, now⟩] })

/-- `_handle_revoke_access_key` (app.py 785-817).  The self-revocation
guard (`key_to_revoke == auth_context.get('key')`) sits after the
existence and domain checks and before the DELETE. -/
def handle_revoke_access_key (ctx : AuthContext) (key_to_revoke : String)
    (s : State) : Res × State :=
  if !(ctx.permissions.contains "admin_domain") then
    (.error "Access denied. Only a domain admin can revoke a key.", s)
  else if key_to_revoke == "" then
    (.error "Action 'revoke_access_key' requires a 'key_to_revoke'.", s)
  else
    match s.access_keys.find? (fun k => k.key == key_to_revoke) with
    | Option.none => (.error "Access key not found.", s)
    | some key_row =>
      if key_row.domain_id != ctx.domain_id then
        (.error "Access denied. You can only revoke keys within your own domain.", s)
      else if key_to_revoke == ctx.key then
        (.error "An admin key cannot revoke itself.", s)
      else
        (.success "Access key has been revoked.",
         { s with access_keys := s.access_keys.filter (fun k => k.key != key_to_revoke) })

/-- Python `s.startswith(pre)` over the character lists. -/
def py_startswith (s pre : String) : Bool :=
  pre.data.isPrefixOf s.data

/-- Python truthiness test `conn_row and conn_row['status'] == 'disabled'`
on an optional connection row. -/
def row_is_disabled (row : Option Connection) : Bool :=
  match row with
  | some c => c.status == "disabled"
  | Option.none => false

/-- Python `conn_row and conn_row[0] == requesting_domain_id` — the
`is_owner` test of the connection-scoped handlers. -/
def row_is_owner (row : Option Connection) (requesting_domain_id : String) : Bool :=
  match row with
  | some c => c.domain_id == requesting_domain_id
  | Option.none => false

/-- Python `conn_row and self._is_federated(requesting_domain_id, conn_row[0])`. -/
def row_is_fed (s : State) (row : Option Connection) (requesting_domain_id : String) : Bool :=
  match row with
  | some c => is_federated s requesting_domain_id c.domain_id
  | Option.none => false

/-- `_handle_set_connection_status` (app.py 819-850). -/
def handle_set_connection_status (ctx : AuthContext) (connection_id status : String)
    (s : State) : Res × State :=
  if !(ctx.permissions.contains "admin_domain") then
    (.error "Access denied. Only a domain admin can change a connection's status.", s)
  else if connection_id == "" || status == "" then
    (.error "Action 'set_connection_status' requires 'connection_id' and 'status'.", s)
  else if !(status == "active" || status == "disabled") then
    (.error "Status must be either 'active' or 'disabled'.", s)
  else
    let conn_row := s.connections.find? (fun c => c.id == connection_id)
    if !row_is_owner conn_row ctx.domain_id then
      (.error "Access denied. Connection not found in your domain.", s)
    else
      (.success ("Connection '" ++ connection_id ++ "' status set to '" ++ status ++ "'."),
       { s with connections := s.connections.map (fun c =>
          if c.id == connection_id then { c with status := status } else c) })

/-- `_handle_create_connection` (app.py 893-923).  Two notes.  The
predefined-API lookup only resolves the description and a local
`data_reference` the connections table does not store, so the
description arrives resolved.  The source INSERT also names a
`created_at` column that `_initialize_schema` never declares for
`connections`; at runtime sqlite raises `OperationalError` and stores
no row.  The evidently intended insert (status defaulting to 'active')
is modelled — this only enlarges the set of reachable states, and no
claim depends on connection creation. -/
def handle_create_connection (name description : String) (allow_writes : Bool)
    (domain_id : String) (gen_hex : String) (s : State) : Res × State :=
  if name == "" || domain_id == "" then
    (.error "Action 'create_connection' requires a 'name' and 'domain_id'.", s)
  else
    let connection_id := "conn_" ++ gen_hex
    if s.connections.any (fun c => c.id == connection_id) then
      (.error "IntegrityError: connections", s)
    else
      (.success "Connection created successfully.",
       { s with connections := s.connections ++
          [⟨connection_id, name, description, allow_writes, "active", domain_id⟩] })

/-- `_handle_assign_pointer_to_connection` (app.py 925-962).  The
handler runs two SELECTs; the second cursor's row is consumed by the
disabled-status check, so the later `conn_domain_row =
cursor.fetchone()` — a second `fetchone` on a cursor whose query by
primary key returned at most one row — is always `None`.  `is_owner`
and `is_federated` are therefore always falsy and the handler denies
every caller of an existing, enabled connection (and of a missing
connection); the UPDATE below the check is unreachable but embedded. -/
def handle_assign_pointer_to_connection (ctx : AuthContext)
    (pointer_address connection_id : String) (s : State) : Res × State :=
  if pointer_address == "" || connection_id == "" then
    (.error "Action 'assign_pointer_to_connection' requires 'pointer_address', 'connection_id', and an access key.", s)
  else
    let conn_row := s.connections.find? (fun c => c.id == connection_id)
    if row_is_disabled conn_row then
      (.error ("Access denied. Connection '" ++ connection_id ++ "' is disabled."), s)
    else
      let conn_domain_row : Option Connection := Option.none
      let is_owner := row_is_owner conn_domain_row ctx.domain_id
      let is_fed := row_is_fed s conn_domain_row ctx.domain_id
      if !(is_owner || is_fed) then
        (.error "Access denied. The provided key is not valid for the domain containing this connection.", s)
      else
        let updated := s.pointers.map (fun p =>
          if p.address == pointer_address then { p with connection_id := some connection_id }
          else p)
        if s.pointers.any (fun p => p.address == pointer_address) then
          (.success ("Pointer " ++ pointer_address ++ " assigned to connection " ++
            connection_id ++ "."), { s with pointers := updated })
        else
          (.error ("Pointer (SRL) not found: " ++ pointer_address), { s with pointers := updated })

/-- `_handle_invoke_through_connection` — the second, effective
definition (app.py 964-1068; the earlier fragment at 405-415 is
overridden by it).  The handler only reads the store (its sole write is
an audit-log entry), so it returns a `Res` and leaves the state to the
caller.  Note: no branch consults the connection's `status` column. -/
def handle_invoke_through_connection (ctx : AuthContext)
    (connection_id pointer_address : String) (s : State) : Res :=
  if connection_id == "" || pointer_address == "" then
    .error "Action 'invoke_through_connection' requires 'connection_id', 'pointer_address', and an access key."
  else
    let conn_domain_row := s.connections.find? (fun c => c.id == connection_id)
    let is_owner := row_is_owner conn_domain_row ctx.domain_id
    let is_fed := row_is_fed s conn_domain_row ctx.domain_id
    if !(is_owner || is_fed) then
      .error "Access denied. The provided key is not valid for the domain containing this connection."
    else
      match s.pointers.find? (fun p => p.address == pointer_address) with
      | Option.none => .error ("Pointer (SRL) not found: " ++ pointer_address)
      | some p =>
        if p.connection_id != some connection_id then
          .error ("Access denied. Pointer (SRL) " ++ pointer_address ++
            " does not belong to connection " ++ connection_id ++ ".")
        else if py_startswith p.data_reference "internal_circuit::" then
          .circuitDelegation (String.mk (p.data_reference.data.drop 18))
        else
          match p.credential_pointer_address with
          | some cred_addr =>
            (match s.pointers.find? (fun cp => cp.address == cred_addr) with
             | Option.none => .error ("Credential pointer '" ++ cred_addr ++ "' not found.")
             | some cred => .proxy p.data_reference (some cred.data_reference))
          | Option.none => .proxy p.data_reference Option.none

/-- `_handle_get_pointers_for_connection` (app.py 1097-1136): read
only; the pointer-list payload itself is not inspected by any claim. -/
def handle_get_pointers_for_connection (ctx : AuthContext) (connection_id : String)
    (s : State) : Res :=
  if connection_id == "" then
    .error "Action 'get_pointers_for_connection' requires 'connection_id' and an access key."
  else
    let conn_domain_row := s.connections.find? (fun c => c.id == connection_id)
    let is_owner := row_is_owner conn_domain_row ctx.domain_id
    let is_fed := row_is_fed s conn_domain_row ctx.domain_id
    if !(is_owner || is_fed) then
      .error "Access denied. The provided key is not valid for the domain containing this connection."
    else
      .success "pointers"

/-- `_handle_create_circuit` (app.py 1070-1095): serializes the circuit
definition to `internal_circuit::<json>` and delegates to
`_handle_create_pointer`.  The serialized JSON is taken as input (an
empty string standing for the rejected falsy/non-list definitions;
`json.dumps` of a non-empty list is never empty). -/
noncomputable def handle_create_circuit (circuit_json description : String)
    (tags : List String) (gen_hex : String) (now : Nat) (s : State) : Res × State :=
  if circuit_json == "" then
    (.error "Action 'create_circuit' requires a 'circuit_definition' as a list of actions.", s)
  else if description == "" then
    (.error "Action 'create_circuit' requires a 'description'.", s)
  else
    handle_create_pointer
      ⟨"internal_circuit::" ++ circuit_json, description, tags,
       Option.none, Option.none, Option.none, Option.none⟩ gen_hex now s

/-! ### The transition system

One constructor per state-mutating handler, with arbitrary inputs.  The
remaining dispatcher actions only read the tables modelled here
(searches, stats, summaries, neighbour/domain/federation listings), or
touch only the audit log (`clear_audit_log`), so they do not change
`State`; `execute_creation_model`'s only table write is an internal
`create_pointer` invocation, which the `create_pointer` constructor
covers, just as it covers `create_circuit`'s delegated call. -/

inductive Step : State → State → Prop
  | create_pointer (q : CreatePointerQuery) (gen_hex : String) (now : Nat) (s : State) :
      Step s (handle_create_pointer q gen_hex now s).2
  | add_neighbor (a b lbl : String) (w : ℝ) (now : Nat) (s : State) :
      Step s (handle_add_neighbor a b lbl w now s).2
  | assign_pointer_to_connection (ctx : AuthContext) (pa ci : String) (s : State) :
      Step s (handle_assign_pointer_to_connection ctx pa ci s).2
  | set_connection_status (ctx : AuthContext) (ci st : String) (s : State) :
      Step s (handle_set_connection_status ctx ci st s).2
  | create_connection (name description : String) (aw : Bool) (di gh : String) (s : State) :
      Step s (handle_create_connection name description aw di gh s).2
  | create_domain (name gh : String) (now : Nat) (s : State) :
      Step s (handle_create_domain name gh now s).2
  | generate_access_key (di : String) (perms : List String) (gh : String) (now : Nat) (s : State) :
      Step s (handle_generate_access_key di perms gh now s).2
  | revoke_access_key (ctx : AuthContext) (k : String) (s : State) :
      Step s (handle_revoke_access_key ctx k s).2
  | initiate_federation (ctx : AuthContext) (td : String) (perms : List String)
      (gfh gkh : String) (now : Nat) (s : State) :
      Step s (handle_initiate_federation ctx td perms gfh gkh now s).2
  | accept_federation (ctx : AuthContext) (rk : String) (now : Nat) (s : State) :
      Step s (handle_accept_federation ctx rk now s).2
  | revoke_federation (ctx : AuthContext) (fid : String) (s : State) :
      Step s (handle_revoke_federation ctx fid s).2
  | create_circuit (cj d : String) (tags : List String) (gh : String) (now : Nat) (s : State) :
      Step s (handle_create_circuit cj d tags gh now s).2

/-- States reachable from the empty store (`_initialize_schema` creates
empty tables; `_initialize_defaults` is `pass`). -/
inductive Reachable : State → Prop
  | init : Reachable initState
  | step {s s' : State} : Reachable s → Step s s' → Reachable s'

/-! ### Store invariants

`Good` bundles the row-level invariants that the schema's PRIMARY
KEY/UNIQUE constraints and the handlers' guards maintain; they are
established over all reachable states below and consumed by the claim
theorems. -/

structure Good (s : State) : Prop where
  addr_nodup : s.pointers.Pairwise (fun p q => p.address ≠ q.address)
  ref_nodup : s.pointers.Pairwise (fun p q => p.data_reference ≠ q.data_reference)
  addr_ne : ∀ p ∈ s.pointers, p.address ≠ ""
  rel_no_self : ∀ r ∈ s.relationships, r.pointer_a_address ≠ r.pointer_b_address
  fed_id_nodup : s.federations.Pairwise (fun f g => f.id ≠ g.id)
  fed_key_nodup : s.federations.Pairwise (fun f g => f.request_key ≠ g.request_key)
  fed_key_ne : ∀ f ∈ s.federations, f.request_key ≠ ""
  fed_status : ∀ f ∈ s.federations,
    f.status = "pending" ∨ f.status = "accepted" ∨ f.status = "revoked"

lemma pairwise_key_eq {α β : Type} {key : α → β} {l : List α}
    (h : l.Pairwise fun a b => key a ≠ key b) {a b : α}
    (ha : a ∈ l) (hb : b ∈ l) (hk : key a = key b) : a = b := by
  by_contra hne
  have hsym : Symmetric (fun a b : α => key a ≠ key b) := by
    intro x y hxy e
    exact hxy e.symm
  exact List.Pairwise.forall hsym h ha hb hne hk

lemma prefixed_ne_empty (pre rest : String) (hpre : pre.data ≠ []) : pre ++ rest ≠ "" := by
  intro heq
  have hdata : (pre ++ rest).data = ("" : String).data := by rw [heq]
  rw [String.data_append] at hdata
  have : pre.data = [] := (List.append_eq_nil.mp hdata).1
  exact hpre this

lemma good_of_untouched {s s' : State} (hG : Good s)
    (hp : s'.pointers = s.pointers) (hr : s'.relationships = s.relationships)
    (hf : s'.federations = s.federations) : Good s' := by
  refine ⟨?_, ?_, ?_, ?_, ?_, ?_, ?_, ?_⟩
  · rw [hp]; exact hG.addr_nodup
  · rw [hp]; exact hG.ref_nodup
  · rw [hp]; exact hG.addr_ne
  · rw [hr]; exact hG.rel_no_self
  · rw [hf]; exact hG.fed_id_nodup
  · rw [hf]; exact hG.fed_key_nodup
  · rw [hf]; exact hG.fed_key_ne
  · rw [hf]; exact hG.fed_status

lemma filter_key_len_le_one {α β : Type} [DecidableEq β] (key : α → β) (v : β)
    (l : List α) (hl : l.Pairwise fun a b => key a ≠ key b) :
    (l.filter fun x => key x == v).length ≤ 1 := by
  induction l with
  | nil => simp
  | cons hd tl ih =>
    rw [List.pairwise_cons] at hl
    by_cases h : key hd = v
    · have hnil : (tl.filter fun x => key x == v) = [] := by
        rw [List.filter_eq_nil_iff]
        intro a ha
        simp only [beq_iff_eq]
        intro hv
        exact hl.1 a ha (h.trans hv.symm)
      simp [List.filter_cons, h, hnil]
    · simp only [List.filter_cons, beq_iff_eq, h, if_false]
      exact ih hl.2

lemma assign_state_eq (ctx : AuthContext) (pa ci : String) (s : State) :
    (handle_assign_pointer_to_connection ctx pa ci s).2 = s := by
  unfold handle_assign_pointer_to_connection
  dsimp only
  repeat' split
  all_goals first | rfl | simp_all [row_is_owner, row_is_fed]

lemma good_assign (ctx : AuthContext) (pa ci : String) (s : State) (hG : Good s) :
    Good (handle_assign_pointer_to_connection ctx pa ci s).2 := by
  rw [assign_state_eq]
  exact hG

lemma good_create_domain (name gh : String) (now : Nat) (s : State) (hG : Good s) :
    Good (handle_create_domain name gh now s).2 := by
  apply good_of_untouched hG <;>
    (unfold handle_create_domain; dsimp only; repeat' split) <;> rfl

lemma good_create_connection (name g : String) (aw : Bool) (di gh : String) (s : State)
    (hG : Good s) : Good (handle_create_connection name g aw di gh s).2 := by
  apply good_of_untouched hG <;>
    (unfold handle_create_connection; dsimp only; repeat' split) <;> rfl

lemma good_generate_access_key (di : String) (perms : List String) (gh : String) (now : Nat)
    (s : State) (hG : Good s) : Good (handle_generate_access_key di perms gh now s).2 := by
  apply good_of_untouched hG <;>
    (unfold handle_generate_access_key; dsimp only; repeat' split) <;> rfl

lemma good_revoke_access_key (ctx : AuthContext) (k : String) (s : State) (hG : Good s) :
    Good (handle_revoke_access_key ctx k s).2 := by
  apply good_of_untouched hG <;>
    (unfold handle_revoke_access_key; repeat' split) <;> rfl

lemma good_set_connection_status (ctx : AuthContext) (ci st : String) (s : State)
    (hG : Good s) : Good (handle_set_connection_status ctx ci st s).2 := by
  apply good_of_untouched hG <;>
    (unfold handle_set_connection_status; dsimp only; repeat' split) <;> rfl

lemma gyroid_pointers (a : String) (s : State) :
    (add_pointer_to_gyroid_structure a s).pointers = s.pointers := by
  unfold add_pointer_to_gyroid_structure
  split <;> rfl

lemma gyroid_federations (a : String) (s : State) :
    (add_pointer_to_gyroid_structure a s).federations = s.federations := by
  unfold add_pointer_to_gyroid_structure
  split <;> rfl

lemma gyroid_rels_mem (a : String) (s : State) (r : Relationship)
    (hr : r ∈ (add_pointer_to_gyroid_structure a s).relationships) :
    r ∈ s.relationships ∨ (r.pointer_a_address = a ∧ r.pointer_b_address ≠ a) := by
  unfold add_pointer_to_gyroid_structure at hr
  split at hr
  · exact Or.inl hr
  · simp only [List.mem_append] at hr
    rcases hr with h | h
    · exact Or.inl h
    · right
      simp only [List.mem_map, List.mem_filter] at h
      obtain ⟨p2, ⟨_, hne⟩, rfl⟩ := h
      exact ⟨rfl, by simpa using hne⟩

lemma good_create_pointer (q : CreatePointerQuery) (gh : String) (now : Nat) (s : State)
    (hG : Good s) : Good (handle_create_pointer q gh now s).2 := by
  unfold handle_create_pointer
  dsimp only
  split
  · exact hG
  split
  · exact hG
  rename_i hrefzero hfind
  split
  · exact hG
  rename_i hcol
  have hfreshaddr : ∀ p ∈ s.pointers, p.address ≠ "ptr_" ++ gh := by
    intro p hp he
    exact hcol (List.any_eq_true.mpr ⟨p, hp, by simp [he]⟩)
  have hfreshref : ∀ p ∈ s.pointers, p.data_reference ≠ q.data_reference := by
    intro p hp
    have := List.find?_eq_none.mp hfind p hp
    simpa using this
  refine ⟨?_, ?_, ?_, ?_, ?_, ?_, ?_, ?_⟩
  · rw [gyroid_pointers]
    dsimp only
    rw [List.pairwise_append]
    refine ⟨hG.addr_nodup, by simp, ?_⟩
    intro p hp b hb
    simp only [List.mem_singleton] at hb
    subst hb
    exact hfreshaddr p hp
  · rw [gyroid_pointers]
    dsimp only
    rw [List.pairwise_append]
    refine ⟨hG.ref_nodup, by simp, ?_⟩
    intro p hp b hb
    simp only [List.mem_singleton] at hb
    subst hb
    exact hfreshref p hp
  · rw [gyroid_pointers]
    dsimp only
    intro p hp
    rw [List.mem_append] at hp
    rcases hp with hp | hp
    · exact hG.addr_ne p hp
    · simp only [List.mem_singleton] at hp
      subst hp
      exact prefixed_ne_empty "ptr_" gh (by decide)
  · intro r hr
    rcases gyroid_rels_mem _ _ r hr with h | h
    · exact hG.rel_no_self r h
    · intro he
      exact h.2 (he ▸ h.1)
  · rw [gyroid_federations]
    exact hG.fed_id_nodup
  · rw [gyroid_federations]
    exact hG.fed_key_nodup
  · rw [gyroid_federations]
    exact hG.fed_key_ne
  · rw [gyroid_federations]
    exact hG.fed_status

lemma good_create_circuit (cj d : String) (tags : List String) (gh : String) (now : Nat)
    (s : State) (hG : Good s) : Good (handle_create_circuit cj d tags gh now s).2 := by
  unfold handle_create_circuit
  split
  · exact hG
  split
  · exact hG
  exact good_create_pointer _ _ _ _ hG

lemma good_add_neighbor (a b lbl : String) (w : ℝ) (now : Nat) (s : State) (hG : Good s) :
    Good (handle_add_neighbor a b lbl w now s).2 := by
  unfold handle_add_neighbor
  dsimp only
  split
  · exact hG
  split
  · exact hG
  rename_i hargs hcnt
  have hcnt2 : (s.pointers.filter fun p =>
      p.address == a || p.address == b).length = 2 := by
    by_contra h
    exact hcnt h
  have hab : a ≠ b := by
    intro he
    subst he
    have hle : (s.pointers.filter fun p => p.address == a).length ≤ 1 :=
      filter_key_len_le_one (fun p : Pointer => p.address) a s.pointers hG.addr_nodup
    rw [show (fun p : Pointer => p.address == a || p.address == a) =
      (fun p : Pointer => p.address == a) from by funext p; simp] at hcnt2
    omega
  have haddr_pres : ∀ p : Pointer,
      ((if p.address == a || p.address == b then { p with last_modified := now } else p) :
        Pointer).address = p.address := by
    intro p
    split <;> rfl
  have href_pres : ∀ p : Pointer,
      ((if p.address == a || p.address == b then { p with last_modified := now } else p) :
        Pointer).data_reference = p.data_reference := by
    intro p
    split <;> rfl
  refine ⟨?_, ?_, ?_, ?_, hG.fed_id_nodup, hG.fed_key_nodup, hG.fed_key_ne, hG.fed_status⟩
  · rw [List.pairwise_map]
    refine hG.addr_nodup.imp ?_
    intro p p' h
    rw [haddr_pres, haddr_pres]
    exact h
  · rw [List.pairwise_map]
    refine hG.ref_nodup.imp ?_
    intro p p' h
    rw [href_pres, href_pres]
    exact h
  · intro p hp
    simp only [List.mem_map] at hp
    obtain ⟨p0, hp0, rfl⟩ := hp
    rw [haddr_pres]
    exact hG.addr_ne p0 hp0
  · intro r hr
    dsimp only at hr
    split at hr
    · exact hG.rel_no_self r hr
    · split at hr
      · rw [List.mem_append] at hr
        rcases hr with hr | hr
        · exact hG.rel_no_self r hr
        · simp only [List.mem_singleton] at hr
          subst hr
          exact hab
      · rw [List.mem_append, List.mem_append] at hr
        rcases hr with (hr | hr) | hr
        · exact hG.rel_no_self r hr
        · simp only [List.mem_singleton] at hr
          subst hr
          exact hab
        · simp only [List.mem_singleton] at hr
          subst hr
          exact hab.symm

lemma good_initiate_federation (ctx : AuthContext) (td : String) (perms : List String)
    (gfh gkh : String) (now : Nat) (s : State) (hG : Good s) :
    Good (handle_initiate_federation ctx td perms gfh gkh now s).2 := by
  unfold handle_initiate_federation
  dsimp only
  split
  · exact hG
  split
  · exact hG
  split
  · exact hG
  split
  · exact hG
  rename_i h1 h2 h3 hcol
  have hfresh : ∀ f ∈ s.federations,
      f.id ≠ "fed_" ++ gfh ∧ f.request_key ≠ "fed_req_" ++ gkh := by
    intro f hf
    constructor <;> intro he <;>
      exact hcol (List.any_eq_true.mpr ⟨f, hf, by simp [he]⟩)
  refine ⟨hG.addr_nodup, hG.ref_nodup, hG.addr_ne, hG.rel_no_self, ?_, ?_, ?_, ?_⟩
  · rw [List.pairwise_append]
    refine ⟨hG.fed_id_nodup, by simp, ?_⟩
    intro f hf g hg
    simp only [List.mem_singleton] at hg
    subst hg
    exact (hfresh f hf).1
  · rw [List.pairwise_append]
    refine ⟨hG.fed_key_nodup, by simp, ?_⟩
    intro f hf g hg
    simp only [List.mem_singleton] at hg
    subst hg
    exact (hfresh f hf).2
  · intro f hf
    rw [List.mem_append] at hf
    rcases hf with hf | hf
    · exact hG.fed_key_ne f hf
    · simp only [List.mem_singleton] at hf
      subst hf
      exact prefixed_ne_empty "fed_req_" gkh (by decide)
  · intro f hf
    rw [List.mem_append] at hf
    rcases hf with hf | hf
    · exact hG.fed_status f hf
    · simp only [List.mem_singleton] at hf
      subst hf
      exact Or.inl rfl

lemma good_fed_map (s : State) (upd : Federation → Federation)
    (hid : ∀ f, (upd f).id = f.id)
    (hkey : ∀ f, (upd f).request_key = f.request_key)
    (hst : ∀ f, (upd f).status = f.status ∨ (upd f).status = "accepted" ∨
      (upd f).status = "revoked") (hG : Good s) :
    Good { s with federations := s.federations.map upd } := by
  refine ⟨hG.addr_nodup, hG.ref_nodup, hG.addr_ne, hG.rel_no_self, ?_, ?_, ?_, ?_⟩
  · rw [List.pairwise_map]
    refine hG.fed_id_nodup.imp ?_
    intro f g h
    rw [hid, hid]
    exact h
  · rw [List.pairwise_map]
    refine hG.fed_key_nodup.imp ?_
    intro f g h
    rw [hkey, hkey]
    exact h
  · intro f hf
    simp only [List.mem_map] at hf
    obtain ⟨f0, hf0, rfl⟩ := hf
    rw [hkey]
    exact hG.fed_key_ne f0 hf0
  · intro f hf
    simp only [List.mem_map] at hf
    obtain ⟨f0, hf0, rfl⟩ := hf
    rcases hst f0 with h | h | h
    · rw [h]
      exact hG.fed_status f0 hf0
    · rw [h]
      exact Or.inr (Or.inl rfl)
    · rw [h]
      exact Or.inr (Or.inr rfl)

lemma good_accept_federation (ctx : AuthContext) (rk : String) (now : Nat) (s : State)
    (hG : Good s) : Good (handle_accept_federation ctx rk now s).2 := by
  unfold handle_accept_federation
  dsimp only
  split
  · exact hG
  split
  · exact hG
  have hg : Good { s with federations := s.federations.map (fun f =>
      if (f.request_key == rk && f.target_domain_id == ctx.domain_id &&
          f.status == "pending") = true then
        { f with status := "accepted", accepted_at := some now }
      else f) } := by
    apply good_fed_map s _ _ _ _ hG
    · intro f
      split <;> rfl
    · intro f
      split <;> rfl
    · intro f
      split
      · exact Or.inr (Or.inl rfl)
      · exact Or.inl rfl
  split <;> exact hg

lemma good_revoke_federation (ctx : AuthContext) (fid : String) (s : State) (hG : Good s) :
    Good (handle_revoke_federation ctx fid s).2 := by
  unfold handle_revoke_federation
  split
  · exact hG
  split
  · exact hG
  split
  · exact hG
  split
  · exact hG
  apply good_fed_map s _ _ _ _ hG
  · intro f
    split <;> rfl
  · intro f
    split <;> rfl
  · intro f
    split
    · exact Or.inr (Or.inr rfl)
    · exact Or.inl rfl

lemma good_step {s s' : State} (h : Step s s') (hG : Good s) : Good s' := by
  cases h with
  | create_pointer q gh now s => exact good_create_pointer q gh now s hG
  | add_neighbor a b lbl w now s => exact good_add_neighbor a b lbl w now s hG
  | assign_pointer_to_connection ctx pa ci s => exact good_assign ctx pa ci s hG
  | set_connection_status ctx ci st s => exact good_set_connection_status ctx ci st s hG
  | create_connection name g aw di gh s => exact good_create_connection name g aw di gh s hG
  | create_domain name gh now s => exact good_create_domain name gh now s hG
  | generate_access_key di perms gh now s => exact good_generate_access_key di perms gh now s hG
  | revoke_access_key ctx k s => exact good_revoke_access_key ctx k s hG
  | initiate_federation ctx td perms gfh gkh now s =>
    exact good_initiate_federation ctx td perms gfh gkh now s hG
  | accept_federation ctx rk now s => exact good_accept_federation ctx rk now s hG
  | revoke_federation ctx fid s => exact good_revoke_federation ctx fid s hG
  | create_circuit cj d tags gh now s => exact good_create_circuit cj d tags gh now s hG

lemma good_init : Good initState := by
  refine ⟨?_, ?_, ?_, ?_, ?_, ?_, ?_, ?_⟩ <;> simp [initState]

/-- Every reachable store satisfies the row-level invariants. -/
lemma good_reachable {s : State} (h : Reachable s) : Good s := by
  induction h with
  | init => exact good_init
  | step _ hs ih => exact good_step hs ih

lemma create_pointer_feds (q : CreatePointerQuery) (gh : String) (now : Nat) (s : State) :
    (handle_create_pointer q gh now s).2.federations = s.federations := by
  unfold handle_create_pointer
  dsimp only
  split
  · rfl
  split
  · rfl
  split
  · rfl
  rw [gyroid_federations]

lemma create_circuit_feds (cj d : String) (tags : List String) (gh : String) (now : Nat)
    (s : State) : (handle_create_circuit cj d tags gh now s).2.federations = s.federations := by
  unfold handle_create_circuit
  split
  · rfl
  split
  · rfl
  exact create_pointer_feds _ _ _ _

lemma add_neighbor_feds (a b lbl : String) (w : ℝ) (now : Nat) (s : State) :
    (handle_add_neighbor a b lbl w now s).2.federations = s.federations := by
  unfold handle_add_neighbor
  dsimp only
  repeat' split
  all_goals rfl

lemma set_connection_status_feds (ctx : AuthContext) (ci st : String) (s : State) :
    (handle_set_connection_status ctx ci st s).2.federations = s.federations := by
  unfold handle_set_connection_status
  dsimp only
  repeat' split
  all_goals rfl

lemma create_connection_feds (name g : String) (aw : Bool) (di gh : String) (s : State) :
    (handle_create_connection name g aw di gh s).2.federations = s.federations := by
  unfold handle_create_connection
  dsimp only
  repeat' split
  all_goals rfl

lemma create_domain_feds (name gh : String) (now : Nat) (s : State) :
    (handle_create_domain name gh now s).2.federations = s.federations := by
  unfold handle_create_domain
  dsimp only
  repeat' split
  all_goals rfl

lemma generate_access_key_feds (di : String) (perms : List String) (gh : String) (now : Nat)
    (s : State) : (handle_generate_access_key di perms gh now s).2.federations = s.federations := by
  unfold handle_generate_access_key
  dsimp only
  repeat' split
  all_goals rfl

lemma revoke_access_key_feds (ctx : AuthContext) (k : String) (s : State) :
    (handle_revoke_access_key ctx k s).2.federations = s.federations := by
  unfold handle_revoke_access_key
  repeat' split
  all_goals rfl

/-- How one step can change a federation row: it stays, it is a fresh
`pending` insert with an id unused before, or it comes from an existing
row by the `accept` update (`pending` to `accepted`) or the `revoke`
update (to `revoked`). -/
lemma step_fed_mem {s s' : State} (h : Step s s') (f' : Federation)
    (hf' : f' ∈ s'.federations) :
    f' ∈ s.federations ∨
    (f'.status = "pending" ∧ ∀ g ∈ s.federations, g.id ≠ f'.id) ∨
    (∃ f ∈ s.federations, f.id = f'.id ∧
      ((f.status = "pending" ∧ f'.status = "accepted") ∨ f'.status = "revoked")) := by
  cases h with
  | create_pointer q gh now s =>
    rw [create_pointer_feds] at hf'
    exact Or.inl hf'
  | add_neighbor a b lbl w now s =>
    rw [add_neighbor_feds] at hf'
    exact Or.inl hf'
  | assign_pointer_to_connection ctx pa ci s =>
    rw [assign_state_eq] at hf'
    exact Or.inl hf'
  | set_connection_status ctx ci st s =>
    rw [set_connection_status_feds] at hf'
    exact Or.inl hf'
  | create_connection name g aw di gh s =>
    rw [create_connection_feds] at hf'
    exact Or.inl hf'
  | create_domain name gh now s =>
    rw [create_domain_feds] at hf'
    exact Or.inl hf'
  | generate_access_key di perms gh now s =>
    rw [generate_access_key_feds] at hf'
    exact Or.inl hf'
  | revoke_access_key ctx k s =>
    rw [revoke_access_key_feds] at hf'
    exact Or.inl hf'
  | create_circuit cj d tags gh now s =>
    rw [create_circuit_feds] at hf'
    exact Or.inl hf'
  | initiate_federation ctx td perms gfh gkh now s =>
    unfold handle_initiate_federation at hf'
    dsimp only at hf'
    split at hf'
    · exact Or.inl hf'
    split at hf'
    · exact Or.inl hf'
    split at hf'
    · exact Or.inl hf'
    split at hf'
    · exact Or.inl hf'
    rename_i h1 h2 h3 hcol
    rw [List.mem_append] at hf'
    rcases hf' with hf' | hf'
    · exact Or.inl hf'
    · simp only [List.mem_singleton] at hf'
      subst hf'
      refine Or.inr (Or.inl ⟨rfl, ?_⟩)
      intro g hg he
      exact hcol (List.any_eq_true.mpr ⟨g, hg, by simp [he]⟩)
  | accept_federation ctx rk now s =>
    unfold handle_accept_federation at hf'
    dsimp only at hf'
    split at hf'
    · exact Or.inl hf'
    split at hf'
    · exact Or.inl hf'
    have hmem : f' ∈ s.federations.map (fun f =>
        if (f.request_key == rk && f.target_domain_id == ctx.domain_id &&
            f.status == "pending") = true then
          { f with status := "accepted", accepted_at := some now }
        else f) := by
      split at hf' <;> exact hf'
    rw [List.mem_map] at hmem
    obtain ⟨f0, hf0, hupd⟩ := hmem
    by_cases hm : (f0.request_key == rk && f0.target_domain_id == ctx.domain_id &&
        f0.status == "pending") = true
    · rw [if_pos hm] at hupd
      subst hupd
      refine Or.inr (Or.inr ⟨f0, hf0, rfl, Or.inl ⟨?_, rfl⟩⟩)
      simp only [Bool.and_eq_true, beq_iff_eq] at hm
      exact hm.2
    · rw [if_neg hm] at hupd
      subst hupd
      exact Or.inl hf0
  | revoke_federation ctx fid s =>
    unfold handle_revoke_federation at hf'
    split at hf'
    · exact Or.inl hf'
    split at hf'
    · exact Or.inl hf'
    split at hf'
    · exact Or.inl hf'
    split at hf'
    · exact Or.inl hf'
    rw [List.mem_map] at hf'
    obtain ⟨f0, hf0, hupd⟩ := hf'
    by_cases hm : (f0.id == fid) = true
    · rw [if_pos hm] at hupd
      subst hupd
      exact Or.inr (Or.inr ⟨f0, hf0, rfl, Or.inr rfl⟩)
    · rw [if_neg hm] at hupd
      subst hupd
      exact Or.inl hf0

/-- In a well-formed store, a federation row whose status differs after
one step moved along `pending` to `accepted` or to `revoked`. -/
lemma step_fed_status {s s' : State} (hG : Good s) (h : Step s s')
    {f f' : Federation} (hf : f ∈ s.federations) (hf' : f' ∈ s'.federations)
    (hid : f'.id = f.id) (hne : f'.status ≠ f.status) :
    (f.status = "pending" ∧ f'.status = "accepted") ∨ f'.status = "revoked" := by
  rcases step_fed_mem h f' hf' with hmem | ⟨_, hfresh⟩ | ⟨g, hg, hgid, htr⟩
  · have := pairwise_key_eq hG.fed_id_nodup hmem hf hid
    exact absurd (congrArg Federation.status this) hne
  · exact absurd hid.symm (hfresh f hf)
  · have hgf : g = f := pairwise_key_eq hG.fed_id_nodup hg hf (hgid.trans hid)
    subst hgf
    exact htr

/-! ### Concrete example data shared by several claims -/

def domA : String := "dom_aaaaaaaaaaaa"

def connMain (st : String) : Connection :=
  { id := "conn_aaaaaaaaaaaa", name := "main", description := "", allow_writes := false,
    status := st, domain_id := domA }

def ptrMain : Pointer :=
  { address := "ptr_aaaaaaaaaaaa", description := "resource",
    data_reference := "https://example.test/resource", tags := [],
    connection_id := some "conn_aaaaaaaaaaaa", credential_pointer_address := Option.none,
    x := 0, y := 0, z := 0, created_at := 0, last_modified := 0 }

def ctxOwner : AuthContext := ⟨"key_aaaa", domA, ["admin_domain", "read_write"]⟩

def ctxForeign : AuthContext := ⟨"key_bbbb", "dom_bbbbbbbbbbbb", ["read_write"]⟩

/-- A store with one domain, one connection of the given status owned
by it, and one pointer assigned to that connection. -/
def stateConn (st : String) : State :=
  ⟨[ptrMain], [], [⟨domA, "alpha", 0⟩], [connMain st], [], []⟩

/-- C1: the claim says substitution resolves `"\x7bresults.0.address\x7d"`
from prior results and leaves unresolvable placeholders in place without
ever raising.  In the code, the first path part `results` is looked up
with `value.get` while `value` is still the results *list*;
`AttributeError` is not in the caught exception tuple, so both the
spec's resolving example and its missing-path example raise instead.
The spec states the permissive never-raise policy as the intent and the
`except (IndexError, KeyError, TypeError)` shows the catch was meant to
cover lookup failures, so this is recorded as a bug in the code. -/
theorem claim_C1_substitution_raises_attribute_error :
    evaluate_expression "results.0.address"
      [PyVal.dict [("address", PyVal.str "ptr_abc")]] = EvalOutcome.attrError ∧
    evaluate_expression "results.9.x"
      [PyVal.dict [("address", PyVal.str "ptr_abc")]] = EvalOutcome.attrError ∧
    substitute_values [("action", PyVal.str "get_pointer"),
        ("pointer_address", PyVal.str "\x7bresults.0.address\x7d")]
      [PyVal.dict [("address", PyVal.str "ptr_abc")]] = Option.none ∧
    substitute_values [("pointer_address", PyVal.str "\x7bresults.9.x\x7d")]
      [PyVal.dict [("address", PyVal.str "ptr_abc")]] = Option.none := by
  exact ⟨rfl, rfl, rfl, rfl⟩

/-- C2: the claim says the three connection-scoped operations allow a
caller iff it owns the connection's domain or is federated with it, and
in particular that an owner is never denied.  `invoke_through_connection`
and `get_pointers_for_connection` do implement that rule, but
`_handle_assign_pointer_to_connection` reads `conn_domain_row` from a
second `fetchone()` on an already-exhausted single-row cursor, so it is
always `None` and every caller — the owner included — is denied.  The
first conjunct exhibits the owner being denied on its own active
connection; the remaining conjuncts show the rule working as claimed in
the other two handlers (owner allowed, unfederated foreign caller
denied). -/
theorem claim_C2_assign_denies_owner :
    (handle_assign_pointer_to_connection ctxOwner "ptr_aaaaaaaaaaaa" "conn_aaaaaaaaaaaa"
        (stateConn "active")).1 =
      Res.error "Access denied. The provided key is not valid for the domain containing this connection." ∧
    handle_get_pointers_for_connection ctxOwner "conn_aaaaaaaaaaaa" (stateConn "active") =
      Res.success "pointers" ∧
    handle_invoke_through_connection ctxForeign "conn_aaaaaaaaaaaa" "ptr_aaaaaaaaaaaa"
        (stateConn "active") =
      Res.error "Access denied. The provided key is not valid for the domain containing this connection." ∧
    handle_invoke_through_connection ctxOwner "conn_aaaaaaaaaaaa" "ptr_aaaaaaaaaaaa"
        (stateConn "active") =
      Res.proxy "https://example.test/resource" Option.none := by
  exact ⟨rfl, rfl, rfl, rfl⟩

/-- C3: the claim says invoking a pointer through a disabled connection
is rejected before any proxy call.  `_handle_invoke_through_connection`
never reads the connection's `status` column: with the very connection
disabled, the owner's invocation still reaches step 4 and performs the
outbound request.  (The only disabled-status check in the source sits
in `_handle_assign_pointer_to_connection`.) -/
theorem claim_C3_disabled_connection_still_proxied :
    (connMain "disabled").status = "disabled" ∧
    handle_invoke_through_connection ctxOwner "conn_aaaaaaaaaaaa" "ptr_aaaaaaaaaaaa"
        (stateConn "disabled") =
      Res.proxy "https://example.test/resource" Option.none := by
  exact ⟨rfl, rfl⟩

/-- C9: `revoke_access_key` applied to the very key authenticating the
call always returns an error and leaves the store unchanged: every
guard before the DELETE returns, and the self-revocation check
(`key_to_revoke == auth_context.get('key')`) fires on any path that
would otherwise reach the DELETE. -/
theorem claim_C9_cannot_revoke_own_key (ctx : AuthContext) (s : State) :
    (handle_revoke_access_key ctx ctx.key s).1.isError = true ∧
    (handle_revoke_access_key ctx ctx.key s).2 = s := by
  unfold handle_revoke_access_key
  split
  · exact ⟨rfl, rfl⟩
  split
  · exact ⟨rfl, rfl⟩
  split
  · exact ⟨rfl, rfl⟩
  · split
    · exact ⟨rfl, rfl⟩
    · split
      · exact ⟨rfl, rfl⟩
      · rename_i hself
        simp at hself

/-! ### Concrete pointer-creation runs -/

def qA : CreatePointerQuery :=
  ⟨"https://a.example/one", "first", [], some 0, some 0, Option.none, Option.none⟩

def qB : CreatePointerQuery :=
  ⟨"https://b.example/two", "second", [], some 1, some 0, Option.none, Option.none⟩

noncomputable def stateAfterA : State := (handle_create_pointer qA "aaaaaaaaaaaa" 0 initState).2

noncomputable def stateAfterB : State := (handle_create_pointer qB "bbbbbbbbbbbb" 1 stateAfterA).2

def ptrA : Pointer :=
  { address := "ptr_aaaaaaaaaaaa", description := "first",
    data_reference := "https://a.example/one", tags := [], connection_id := Option.none,
    credential_pointer_address := Option.none, x := 0, y := 0, z := 0,
    created_at := 0, last_modified := 0 }

def ptrB : Pointer :=
  { address := "ptr_bbbbbbbbbbbb", description := "second",
    data_reference := "https://b.example/two", tags := [], connection_id := Option.none,
    credential_pointer_address := Option.none, x := 1, y := 0, z := 0,
    created_at := 1, last_modified := 1 }

lemma stateAfterA_eq : stateAfterA = ⟨[ptrA], [], [], [], [], []⟩ := by
  rfl

lemma stateAfterB_eq : stateAfterB =
    ⟨[ptrA, ptrB],
     [⟨"ptr_bbbbbbbbbbbb", "ptr_aaaaaaaaaaaa", "gyroid_related", gyroidScore (1 - 0) (0 - 0) (0 - 0)⟩],
     [], [], [], []⟩ := by
  rfl

lemma reachable_stateAfterA : Reachable stateAfterA :=
  Reachable.step Reachable.init (Step.create_pointer qA "aaaaaaaaaaaa" 0 initState)

lemma reachable_stateAfterB : Reachable stateAfterB :=
  Reachable.step reachable_stateAfterA (Step.create_pointer qB "bbbbbbbbbbbb" 1 stateAfterA)

/-- C7: the claim says every relationship row has a mirror row with the
same label and weight, and that the gyroid edges inserted at pointer
creation come as two rows per edge.  `add_neighbor` does insert both
directions, but the bulk gyroid INSERT of
`_add_pointer_to_gyroid_structure` fixes `p1` to the new pointer and
emits only `(new, existing)` rows.  After creating two pointers the
store holds the row `(B, A)` and no row `(A, B)`, contradicting both
the spec and the code's own `get_graph_stats` comment that divides the
row count by 2 "for bidirectional links". -/
theorem claim_C7_gyroid_edges_one_directional :
    Reachable stateAfterB ∧
    (∃ r ∈ stateAfterB.relationships,
      r.pointer_a_address = "ptr_bbbbbbbbbbbb" ∧ r.pointer_b_address = "ptr_aaaaaaaaaaaa" ∧
      r.relationship = "gyroid_related") ∧
    ¬(∃ r ∈ stateAfterB.relationships,
      r.pointer_a_address = "ptr_aaaaaaaaaaaa" ∧ r.pointer_b_address = "ptr_bbbbbbbbbbbb") := by
  refine ⟨reachable_stateAfterB, ?_, ?_⟩
  · rw [stateAfterB_eq]
    exact ⟨⟨"ptr_bbbbbbbbbbbb", "ptr_aaaaaaaaaaaa", "gyroid_related",
      gyroidScore (1 - 0) (0 - 0) (0 - 0)⟩, by simp, rfl, rfl, rfl⟩
  · rw [stateAfterB_eq]
    rintro ⟨r, hr, h1, h2⟩
    simp only [List.mem_singleton] at hr
    subst hr
    simp at h1

/-- C8 counterexample: a `create_pointer` call with no coordinates for
the generated address `ptr_0123456789ab` stores
`z = 3319 / 100 ≠ 0` — the hash-derived third segment overwrites the
`"z": 0` initialisation — falsifying the claim's "the stored z
coordinate starts at 0". -/
def qC8 : CreatePointerQuery :=
  ⟨"https://example.test/r8", "", [], Option.none, Option.none, Option.none, Option.none⟩

noncomputable def stateC8 : State := (handle_create_pointer qC8 "0123456789ab" 0 initState).2

noncomputable def ptrC8 : Pointer :=
  { address := "ptr_0123456789ab", description := "",
    data_reference := "https://example.test/r8", tags := [], connection_id := Option.none,
    credential_pointer_address := Option.none,
    x := (hash_to_vector3 "ptr_0123456789ab").1,
    y := (hash_to_vector3 "ptr_0123456789ab").2.1,
    z := (hash_to_vector3 "ptr_0123456789ab").2.2,
    created_at := 0, last_modified := 0 }

lemma stateC8_pointers : stateC8.pointers = [ptrC8] := by
  rfl

/-- C8: the claim as stated is false on the code — with no coordinates
supplied, the stored `z` is the hash-derived segment, not 0. -/
theorem claim_C8_counterexample :
    Reachable stateC8 ∧
    (∃ p ∈ stateC8.pointers, p.address = "ptr_0123456789ab" ∧ p.z = 3319 / 100) ∧
    (3319 / 100 : ℚ) ≠ 0 := by
  refine ⟨Reachable.step Reachable.init (Step.create_pointer qC8 "0123456789ab" 0 initState),
    ?_, by norm_num⟩
  rw [stateC8_pointers]
  refine ⟨ptrC8, by simp, rfl, ?_⟩
  show (hash_to_vector3 "ptr_0123456789ab").2.2 = 3319 / 100
  rw [hash_to_vector3_concrete]

/-- C8 (amended): when `create_pointer` is given no coordinates and its
guards pass (non-empty, unused `data_reference`; fresh generated
address), the stored coordinates — including `z` — are exactly
`_hash_to_vector3` of the new address: a deterministic pure function of
the address that hashes it with SHA-256, splits the digest integer into
three decimal segments and normalises each into `[0, 100)`.  The `z`
initialisation to 0 is overwritten by the third segment, so the stored
`z` is hash-derived rather than 0. -/
theorem claim_C8_amended_hash_coords (q : CreatePointerQuery) (gen_hex : String) (now : Nat)
    (s : State) (hx : q.x = Option.none) (hy : q.y = Option.none) (hz : q.z = Option.none)
    (href : q.data_reference ≠ "")
    (hnodup : ∀ p ∈ s.pointers, p.data_reference ≠ q.data_reference)
    (hfresh : ∀ p ∈ s.pointers, p.address ≠ "ptr_" ++ gen_hex) :
    (handle_create_pointer q gen_hex now s).1.isSuccess = true ∧
    (handle_create_pointer q gen_hex now s).2.pointers = s.pointers ++
      [{ address := "ptr_" ++ gen_hex, description := q.description,
         data_reference := q.data_reference, tags := q.tags, connection_id := q.connection_id,
         credential_pointer_address := Option.none,
         x := (hash_to_vector3 ("ptr_" ++ gen_hex)).1,
         y := (hash_to_vector3 ("ptr_" ++ gen_hex)).2.1,
         z := (hash_to_vector3 ("ptr_" ++ gen_hex)).2.2,
         created_at := now, last_modified := now }] := by
  unfold handle_create_pointer
  dsimp only
  rw [if_neg (by simpa using href)]
  rw [List.find?_eq_none.mpr (by intro p hp; simpa using hnodup p hp)]
  rw [if_neg (by
    intro hany
    obtain ⟨p, hp, he⟩ := List.any_eq_true.mp hany
    exact hfresh p hp (by simpa using he))]
  rw [hx, hy, hz]
  dsimp only [Option.isNone]
  rw [gyroid_pointers]
  exact ⟨rfl, rfl⟩

/-- C8 amended-claim witness: the concrete no-coordinates creation used
for the counterexample instantiates the amended theorem. -/
theorem claim_C8_witness :
    (handle_create_pointer qC8 "0123456789ab" 0 initState).1.isSuccess = true ∧
    stateC8.pointers = initState.pointers ++ [ptrC8] := by
  have h := claim_C8_amended_hash_coords qC8 "0123456789ab" 0 initState rfl rfl rfl
    (by decide) (by intro p hp; simp [initState] at hp) (by intro p hp; simp [initState] at hp)
  exact ⟨h.1, h.2⟩

/-- Duplicate-reference conflict: with a pointer already holding the
requested `data_reference`, `create_pointer` errors before any INSERT
and the store is unchanged. -/
lemma create_pointer_conflict (q : CreatePointerQuery) (gh : String) (now : Nat) (s : State)
    (hdup : ∃ p ∈ s.pointers, p.data_reference = q.data_reference) :
    (handle_create_pointer q gh now s).1.isError = true ∧
    (handle_create_pointer q gh now s).2 = s := by
  obtain ⟨p, hp, hpref⟩ := hdup
  unfold handle_create_pointer
  dsimp only
  split
  · exact ⟨rfl, rfl⟩
  split
  · exact ⟨rfl, rfl⟩
  · rename_i hfind
    exact absurd (by simpa using List.find?_eq_none.mp hfind p hp) (by simp [hpref])

/-- C4: in every reachable store, `data_reference` values are pairwise
distinct across pointers, and a `create_pointer` call whose
`data_reference` is already taken returns an error and leaves the store
(pointer and relationship tables included) unchanged. -/
theorem claim_C4_data_reference_unique (s : State) (h : Reachable s) :
    s.pointers.Pairwise (fun p q => p.data_reference ≠ q.data_reference) ∧
    (∀ (q : CreatePointerQuery) (gen_hex : String) (now : Nat),
      (∃ p ∈ s.pointers, p.data_reference = q.data_reference) →
      (handle_create_pointer q gen_hex now s).1.isError = true ∧
      (handle_create_pointer q gen_hex now s).2 = s) := by
  refine ⟨(good_reachable h).ref_nodup, ?_⟩
  intro q gh now hdup
  exact create_pointer_conflict q gh now s hdup

/-- C4 witness: after one concrete creation, re-creating the same
`data_reference` (with a different generated address) errors and leaves
the store unchanged. -/
theorem claim_C4_witness :
    stateAfterA.pointers.Pairwise (fun p q => p.data_reference ≠ q.data_reference) ∧
    (handle_create_pointer qA "cccccccccccc" 2 stateAfterA).1.isError = true ∧
    (handle_create_pointer qA "cccccccccccc" 2 stateAfterA).2 = stateAfterA := by
  have h := claim_C4_data_reference_unique stateAfterA reachable_stateAfterA
  have h2 := h.2 qA "cccccccccccc" 2 ⟨ptrA, by rw [stateAfterA_eq]; simp, rfl⟩
  exact ⟨h.1, h2.1, h2.2⟩

/-- C10: no reachable store has a self-loop relationship row: the
gyroid INSERT excludes the `(p, p)` pair, and `add_neighbor(a, a)`
fails with the not-found error even when pointer `a` exists, because
`SELECT COUNT(*) ... WHERE address IN (a, a)` counts the single row
holding `a` once, not twice. -/
theorem claim_C10_no_self_loops (s : State) (h : Reachable s) :
    (∀ r ∈ s.relationships, r.pointer_a_address ≠ r.pointer_b_address) ∧
    (∀ (a lbl : String) (w : ℝ) (now : Nat), (∃ p ∈ s.pointers, p.address = a) →
      (handle_add_neighbor a a lbl w now s).1 =
        Res.error "One or both pointers (SRLs) not found. Cannot create relationship." ∧
      (handle_add_neighbor a a lbl w now s).2 = s) := by
  have hG := good_reachable h
  refine ⟨hG.rel_no_self, ?_⟩
  rintro a lbl w now ⟨p, hp, hpa⟩
  have ha : a ≠ "" := hpa ▸ hG.addr_ne p hp
  have hle : (s.pointers.filter fun x => x.address == a).length ≤ 1 :=
    filter_key_len_le_one (fun p : Pointer => p.address) a s.pointers hG.addr_nodup
  unfold handle_add_neighbor
  dsimp only
  rw [if_neg (by simp [ha])]
  rw [if_pos (by
    rw [show (fun p : Pointer => p.address == a || p.address == a) =
      (fun p : Pointer => p.address == a) from by funext p; simp]
    omega)]
  exact ⟨rfl, rfl⟩

/-- C10 witness at the one-pointer store: `add_neighbor` of the
existing pointer with itself is rejected with the not-found error. -/
theorem claim_C10_witness :
    (handle_add_neighbor "ptr_aaaaaaaaaaaa" "ptr_aaaaaaaaaaaa" "friend" 1 3 stateAfterA).1 =
      Res.error "One or both pointers (SRLs) not found. Cannot create relationship." ∧
    (handle_add_neighbor "ptr_aaaaaaaaaaaa" "ptr_aaaaaaaaaaaa" "friend" 1 3 stateAfterA).2 =
      stateAfterA := by
  exact (claim_C10_no_self_loops stateAfterA reachable_stateAfterA).2
    "ptr_aaaaaaaaaaaa" "friend" 1 3 ⟨ptrA, by rw [stateAfterA_eq]; simp, rfl⟩

/-! ### Federation runs -/

def ctxAdminA : AuthContext := ⟨"key_a", "dom_aaaaaaaaaaaa", ["admin_domain"]⟩

def ctxAdminB : AuthContext := ⟨"key_b", "dom_bbbbbbbbbbbb", ["admin_domain"]⟩

def stateFedPending : State :=
  (handle_initiate_federation ctxAdminA "dom_bbbbbbbbbbbb" ["read_pointers"]
    "111111111111" "kkk1" 0 initState).2

def stateFedRevoked : State :=
  (handle_revoke_federation ctxAdminA "fed_111111111111" stateFedPending).2

def fedPendingRow : Federation :=
  ⟨"fed_111111111111", "dom_aaaaaaaaaaaa", "dom_bbbbbbbbbbbb", "pending",
   ["read_pointers"], "fed_req_kkk1", 0, Option.none⟩

lemma stateFedPending_eq : stateFedPending = ⟨[], [], [], [], [], [fedPendingRow]⟩ := by
  rfl

lemma reachable_stateFedPending : Reachable stateFedPending :=
  Reachable.step Reachable.init (Step.initiate_federation ctxAdminA "dom_bbbbbbbbbbbb"
    ["read_pointers"] "111111111111" "kkk1" 0 initState)

/-- C5 counterexample: `revoke_federation`'s UPDATE has no status
precondition, so an involved domain admin moves a still-`pending`
federation directly to `revoked` — a transition the claim says no
operation performs. -/
theorem claim_C5_counterexample :
    Reachable stateFedPending ∧
    Step stateFedPending stateFedRevoked ∧
    (∃ f ∈ stateFedPending.federations, f.id = "fed_111111111111" ∧ f.status = "pending") ∧
    (∃ f ∈ stateFedRevoked.federations, f.id = "fed_111111111111" ∧ f.status = "revoked") := by
  refine ⟨reachable_stateFedPending,
    Step.revoke_federation ctxAdminA "fed_111111111111" stateFedPending, ?_, ?_⟩ <;> decide

/-- C5 (amended): in a reachable store, one step changes a federation's
status only along `pending → accepted` (accept), `pending → revoked` or
`accepted → revoked` (revoke, whose UPDATE carries no status guard and
therefore also cancels pending requests).  No operation produces
`rejected` — no handler for rejecting a request is registered — and
`revoked` remains terminal. -/
theorem claim_C5_amended_transitions {s s' : State} (hs : Reachable s) (hstep : Step s s')
    {f f' : Federation} (hf : f ∈ s.federations) (hf' : f' ∈ s'.federations)
    (hid : f'.id = f.id) (hne : f'.status ≠ f.status) :
    (f.status = "pending" ∧ f'.status = "accepted") ∨
    ((f.status = "pending" ∨ f.status = "accepted") ∧ f'.status = "revoked") := by
  have hG := good_reachable hs
  rcases step_fed_status hG hstep hf hf' hid hne with h | h
  · exact Or.inl h
  · refine Or.inr ⟨?_, h⟩
    rcases hG.fed_status f hf with h1 | h1 | h1
    · exact Or.inl h1
    · exact Or.inr h1
    · exact absurd (h.trans h1.symm) hne

/-- C5 amended-claim witness: the pending-to-revoked step of the
counterexample instantiates the amended transition theorem. -/
theorem claim_C5_witness :
    ∃ f ∈ stateFedPending.federations, ∃ f' ∈ stateFedRevoked.federations,
      f'.id = f.id ∧ f'.status ≠ f.status ∧
      ((f.status = "pending" ∧ f'.status = "accepted") ∨
       ((f.status = "pending" ∨ f.status = "accepted") ∧ f'.status = "revoked")) := by
  refine ⟨fedPendingRow, by decide, { fedPendingRow with status := "revoked" }, by decide,
    by decide, by decide, ?_⟩
  exact claim_C5_amended_transitions reachable_stateFedPending
    (Step.revoke_federation ctxAdminA "fed_111111111111" stateFedPending)
    (by decide) (by decide) (by decide) (by decide)

lemma map_cond_eq_self {α : Type} (l : List α) (p : α → Bool) (f : α → α)
    (h : ∀ a ∈ l, ¬p a = true) : (l.map fun a => if p a = true then f a else a) = l := by
  induction l with
  | nil => rfl
  | cons hd tl ih =>
    simp only [List.map_cons]
    rw [if_neg (h hd (by simp)), ih (fun a ha => h a (by simp [ha]))]

lemma accept_no_rematch (ctx2 : AuthContext) (rk : String) (now2 : Nat) (t : State)
    (hnone : ∀ f ∈ t.federations,
      ¬(f.request_key == rk && f.target_domain_id == ctx2.domain_id &&
        f.status == "pending") = true) :
    (handle_accept_federation ctx2 rk now2 t).1.isSuccess = false := by
  unfold handle_accept_federation
  dsimp only
  split
  · rfl
  split
  · rfl
  rw [if_pos (List.countP_eq_zero.mpr hnone)]
  rfl

/-- C6: with the `admin_domain` permission assumed, `accept_federation`
succeeds iff some federation row holds the given `request_key`, is
targeted at the caller's domain, and is still `pending`; in every other
case it returns an error and leaves the federations table unchanged,
and after a success the same key can never be accepted again (by any
caller), because the conditional UPDATE
(`WHERE ... AND status = 'pending'`) has consumed it. -/
theorem claim_C6_accept_iff (s : State) (hs : Reachable s) (ctx : AuthContext)
    (hadm : "admin_domain" ∈ ctx.permissions) (rk : String) (now : Nat) :
    ((handle_accept_federation ctx rk now s).1.isSuccess = true ↔
      ∃ f ∈ s.federations, f.request_key = rk ∧ f.target_domain_id = ctx.domain_id ∧
        f.status = "pending") ∧
    ((handle_accept_federation ctx rk now s).1.isSuccess = false →
      (handle_accept_federation ctx rk now s).1.isError = true ∧
      (handle_accept_federation ctx rk now s).2 = s) ∧
    ((handle_accept_federation ctx rk now s).1.isSuccess = true →
      ∀ (ctx2 : AuthContext) (now2 : Nat),
        (handle_accept_federation ctx2 rk now2
          (handle_accept_federation ctx rk now s).2).1.isSuccess = false) := by
  have hG := good_reachable hs
  have hiff : (handle_accept_federation ctx rk now s).1.isSuccess = true ↔
      ∃ f ∈ s.federations, f.request_key = rk ∧ f.target_domain_id = ctx.domain_id ∧
        f.status = "pending" := by
    unfold handle_accept_federation
    dsimp only
    rw [if_neg (by simp [hadm])]
    split
    · rename_i hrk
      simp only [beq_iff_eq] at hrk
      constructor
      · intro h
        simp [Res.isSuccess] at h
      · rintro ⟨f, hf, hkey, -⟩
        exact absurd (hkey.trans hrk) (hG.fed_key_ne f hf)
    · split
      · rename_i hrk hc
        constructor
        · intro h
          simp [Res.isSuccess] at h
        · rintro ⟨f, hf, hkey, htgt, hst⟩
          have := List.countP_eq_zero.mp hc f hf
          simp [hkey, htgt, hst] at this
      · rename_i hrk hc
        constructor
        · intro _
          obtain ⟨f, hf, hm⟩ := List.countP_pos_iff.mp (Nat.pos_of_ne_zero hc)
          simp only [Bool.and_eq_true, beq_iff_eq] at hm
          exact ⟨f, hf, hm.1.1, hm.1.2, hm.2⟩
        · intro _
          rfl
  have hunch : (handle_accept_federation ctx rk now s).1.isSuccess = false →
      (handle_accept_federation ctx rk now s).1.isError = true ∧
      (handle_accept_federation ctx rk now s).2 = s := by
    unfold handle_accept_federation
    dsimp only
    split
    · exact fun _ => ⟨rfl, rfl⟩
    split
    · exact fun _ => ⟨rfl, rfl⟩
    split
    · rename_i hrk hadm2 hc
      intro _
      refine ⟨rfl, ?_⟩
      have hmap := map_cond_eq_self s.federations _
        (fun f => { f with status := "accepted", accepted_at := some now })
        (List.countP_eq_zero.mp hc)
      show { s with federations := _ } = s
      rw [hmap]
    · intro hfail
      simp [Res.isSuccess] at hfail
  have hcons : (handle_accept_federation ctx rk now s).1.isSuccess = true →
      ∀ (ctx2 : AuthContext) (now2 : Nat),
        (handle_accept_federation ctx2 rk now2
          (handle_accept_federation ctx rk now s).2).1.isSuccess = false := by
    intro hok ctx2 now2
    obtain ⟨f0, hf0, hkey0, htgt0, hst0⟩ := hiff.mp hok
    have hrkne : rk ≠ "" := fun he => hG.fed_key_ne f0 hf0 (hkey0.trans he)
    have hstate : (handle_accept_federation ctx rk now s).2 =
        { s with federations := s.federations.map (fun f =>
          if (f.request_key == rk && f.target_domain_id == ctx.domain_id &&
              f.status == "pending") = true then
            { f with status := "accepted", accepted_at := some now }
          else f) } := by
      unfold handle_accept_federation
      dsimp only
      rw [if_neg (by simp [hadm]), if_neg (by simpa using hrkne)]
      split <;> rfl
    rw [hstate]
    apply accept_no_rematch
    intro f' hf'
    simp only [List.mem_map] at hf'
    obtain ⟨g, hg, rfl⟩ := hf'
    by_cases hgm : (g.request_key == rk && g.target_domain_id == ctx.domain_id &&
        g.status == "pending") = true
    · rw [if_pos hgm]
      simp
    · rw [if_neg hgm]
      intro hm2
      simp only [Bool.and_eq_true, beq_iff_eq] at hm2
      have hgf0 : g = f0 :=
        pairwise_key_eq hG.fed_key_nodup hg hf0 (hm2.1.1.trans hkey0.symm)
      subst hgf0
      exact hgm (by simp [hkey0, htgt0, hst0])
  exact ⟨hiff, hunch, hcons⟩

/-- C6 witness: on the concrete pending federation, the target-domain
admin's accept succeeds, and a second accept of the same key fails. -/
theorem claim_C6_witness :
    (handle_accept_federation ctxAdminB "fed_req_kkk1" 1 stateFedPending).1.isSuccess = true ∧
    (handle_accept_federation ctxAdminB "fed_req_kkk1" 2
      (handle_accept_federation ctxAdminB "fed_req_kkk1" 1 stateFedPending).2).1.isSuccess =
      false := by
  have h := claim_C6_accept_iff stateFedPending reachable_stateFedPending ctxAdminB
    (by simp [ctxAdminB]) "fed_req_kkk1" 1
  have hok : (handle_accept_federation ctxAdminB "fed_req_kkk1" 1 stateFedPending).1.isSuccess =
      true := h.1.mpr ⟨fedPendingRow, by decide, by decide, by decide, by decide⟩
  exact ⟨hok, h.2.2 hok ctxAdminB 2⟩

/-- C9 witness: a concrete admin context failing to revoke its own key. -/
theorem claim_C9_witness :
    (handle_revoke_access_key ctxOwner ctxOwner.key (stateConn "active")).1.isError = true ∧
    (handle_revoke_access_key ctxOwner ctxOwner.key (stateConn "active")).2 =
      stateConn "active" :=
  claim_C9_cannot_revoke_own_key ctxOwner (stateConn "active")
